import Mathlib

/-!
Verification development for the DemeterEye crop-monitor core
(`chipnik_monitor.py` / `anomalies.py`).

The Python code is shallowly embedded: floating-point values become
rationals, masked raster cells become `Option ℚ` (with `none` for a masked
cell), on-disk caches become association lists threaded through the
functions as explicit state, and exceptions become `Except`.  Each
definition keeps the name of the source function it embeds where Lean
allows it.
-/

namespace DemeterEye

/-! ## AOI resolver (`normalize_bbox`) -/

/-- `normalize_bbox` from `chipnik_monitor.py`: sorts min/max per axis,
rejects out-of-range longitude/latitude, rejects zero-area boxes.
`except` failure models the `ValueError` (`InvalidAOI`). -/
def normalize_bbox (bbox : List ℚ) : Except String (List ℚ) :=
  match bbox with
  | [lon1, lat1, lon2, lat2] =>
    let minLon := min lon1 lon2
    let maxLon := max lon1 lon2
    let minLat := min lat1 lat2
    let maxLat := max lat1 lat2
    if ¬ (-180 ≤ minLon ∧ minLon ≤ 180 ∧ -180 ≤ maxLon ∧ maxLon ≤ 180) then
      .error "Longitude values must fall between -180 and 180 degrees."
    else if ¬ (-90 ≤ minLat ∧ minLat ≤ 90 ∧ -90 ≤ maxLat ∧ maxLat ≤ 90) then
      .error "Latitude values must fall between -90 and 90 degrees."
    else if minLon = maxLon ∨ minLat = maxLat then
      .error "AOI must span a non-zero area."
    else
      .ok [minLon, minLat, maxLon, maxLat]
  | _ => .error "AOI must contain four coordinates (min lon, min lat, max lon, max lat)."

/-! ## NDVI computation (`calculate_index_from_urls`)

A band read with `masked=True` is a grid of cells, each either masked
(`none`) or carrying a reflectance value.  NDVI is computed with
`numpy.ma` semantics: a cell is masked in the result when either band is
masked there, or when the denominator `nir + red` is zero (the masked
domain of `np.ma` division). -/

/-- One cell of `(nir - red) / (nir + red)` under `np.ma` semantics:
masked band cells and zero denominators are masked, not propagated. -/
def ndviCell (red nir : Option ℚ) : Option ℚ :=
  match red, nir with
  | some r, some n => if n + r = 0 then none else some ((n - r) / (n + r))
  | _, _ => none

/-- Elementwise NDVI over two band grids (flattened cell lists). -/
def ndviGrid (red nir : List (Option ℚ)) : List (Option ℚ) :=
  List.zipWith ndviCell red nir

/-- The unmasked cells of a grid (`MaskedArray.compressed`). -/
def validValues (grid : List (Option ℚ)) : List ℚ :=
  grid.filterMap id

/-- Scalar mean over valid cells only (`masked_data.mean()`); `none` when
no cell is valid. -/
def meanIndex (grid : List (Option ℚ)) : Option ℚ :=
  let vs := validValues grid
  if vs.length = 0 then none else some (vs.sum / (vs.length : ℚ))

/-- `CROP_NDVI_THRESHOLD` from the source. -/
def CROP_NDVI_THRESHOLD : ℚ := 35 / 100

/-- `HLS_PIXEL_AREA_SQM` (30 m pixels). -/
def HLS_PIXEL_AREA_SQM : ℚ := 900

/-- Crop-cover statistics (`summarise_ndvi_stats`); the NaN fields of the
zero-valid-pixel branch are modelled as `none`. -/
structure NdviStats where
  mean_ndvi : ℚ
  crop_fraction : Option ℚ
  crop_percent : Option ℚ
  crop_area_hectares : Option ℚ
  total_area_hectares : Option ℚ
deriving DecidableEq, Repr

/-- `summarise_ndvi_stats` over the list of valid NDVI cells. -/
def summarise_ndvi_stats (valid : List ℚ) (meanNdvi : ℚ) : NdviStats :=
  let validPixels := valid.length
  if validPixels = 0 then
    { mean_ndvi := meanNdvi, crop_fraction := none, crop_percent := none,
      crop_area_hectares := none, total_area_hectares := none }
  else
    let cropPixels := (valid.filter (fun v => decide (CROP_NDVI_THRESHOLD ≤ v))).length
    let cropFraction : ℚ := (cropPixels : ℚ) / (validPixels : ℚ)
    { mean_ndvi := meanNdvi,
      crop_fraction := some cropFraction,
      crop_percent := some (cropFraction * 100),
      crop_area_hectares := some ((cropPixels : ℚ) * HLS_PIXEL_AREA_SQM / 10000),
      total_area_hectares := some ((validPixels : ℚ) * HLS_PIXEL_AREA_SQM / 10000) }

/-- One entry of the on-disk index cache (`.npz` file): index array,
mask (folded into the `Option` cells) and stored mean. -/
structure IndexCacheEntry where
  data : List (Option ℚ)
  mean : ℚ
deriving DecidableEq, Repr

/-- The index cache as an association list keyed by the cache path. -/
def cacheLookup (cache : List (ℕ × IndexCacheEntry)) (key : ℕ) :
    Option IndexCacheEntry :=
  (cache.find? (fun p => decide (p.1 = key))).map Prod.snd

/-- A cache write (`np.savez_compressed`); the newest entry shadows. -/
def cacheInsert (cache : List (ℕ × IndexCacheEntry)) (key : ℕ)
    (entry : IndexCacheEntry) : List (ℕ × IndexCacheEntry) :=
  (key, entry) :: cache

/-- The `(index raster, mean, stats)` triple returned by
`calculate_index_from_urls`. -/
structure IndexResult where
  data : Option (List (Option ℚ))
  mean : Option ℚ
  stats : Option NdviStats
deriving DecidableEq, Repr

/-- `calculate_index_from_urls` (NDVI path), over bands that have already
been read through their windows; the on-disk cache is threaded as state.
Mirrors the source order: cache hit, empty read, shape mismatch, index
computation, zero-validity early return, cache write. -/
def calculate_index_from_urls (key : ℕ) (red nir : List (Option ℚ))
    (cache : List (ℕ × IndexCacheEntry)) :
    IndexResult × List (ℕ × IndexCacheEntry) :=
  match cacheLookup cache key with
  | some e =>
      ({ data := some e.data, mean := some e.mean,
         stats := some (summarise_ndvi_stats (validValues e.data) e.mean) }, cache)
  | none =>
      if red.length = 0 ∨ nir.length = 0 then
        ({ data := none, mean := none, stats := none }, cache)
      else if red.length ≠ nir.length then
        ({ data := none, mean := none, stats := none }, cache)
      else if (validValues (ndviGrid red nir)).length = 0 then
        ({ data := none, mean := none, stats := none }, cache)
      else
        ({ data := some (ndviGrid red nir),
           mean := some ((validValues (ndviGrid red nir)).sum /
             ((validValues (ndviGrid red nir)).length : ℚ)),
           stats := some (summarise_ndvi_stats (validValues (ndviGrid red nir))
             ((validValues (ndviGrid red nir)).sum /
               ((validValues (ndviGrid red nir)).length : ℚ))) },
         cacheInsert cache key
           { data := ndviGrid red nir,
             mean := (validValues (ndviGrid red nir)).sum /
               ((validValues (ndviGrid red nir)).length : ℚ) })

/-! ## Raster window resolver (`_window_from_bbox`) -/

/-- A rectangle of geographic/projected bounds. -/
structure Bounds where
  left : ℚ
  bottom : ℚ
  right : ℚ
  top : ℚ
deriving DecidableEq, Repr

/-- A raster's own bounds and pixel grid (north-up affine transform with
origin at the top-left corner). -/
structure RasterGrid where
  bounds : Bounds
  pixelWidth : ℚ
  pixelHeight : ℚ
deriving DecidableEq, Repr

/-- An integer pixel read window. -/
structure Window where
  colOff : ℤ
  rowOff : ℤ
  width : ℤ
  height : ℤ
deriving DecidableEq, Repr

/-- `_window_from_bbox`: the reprojection (`transform_bounds`) outcome is
an input — on failure the source logs and re-raises (`raise`), modelled
as `.error`.  On success the reprojected AOI is intersected with the
raster bounds; an empty intersection or a degenerate rounded window
yields `.ok none`.  Offsets are rounded with `floor`, the shape with
`ceil`, as in `window.round_offsets(op=math.floor).round_shape(op=math.ceil)`. -/
def window_from_bbox (reprojected : Except String Bounds) (src : RasterGrid) :
    Except String (Option Window) :=
  match reprojected with
  | .error e => .error e
  | .ok rb =>
    let left := max rb.left src.bounds.left
    let right := min rb.right src.bounds.right
    let bottom := max rb.bottom src.bounds.bottom
    let top := min rb.top src.bounds.top
    if left < right ∧ bottom < top then
      let w : Window :=
        { colOff := ⌊(left - src.bounds.left) / src.pixelWidth⌋
          rowOff := ⌊(src.bounds.top - top) / src.pixelHeight⌋
          width := ⌈(right - left) / src.pixelWidth⌉
          height := ⌈(top - bottom) / src.pixelHeight⌉ }
      if w.width ≤ 0 ∨ w.height ≤ 0 then .ok none else .ok (some w)
    else .ok none

/-- The enclosing `try` of `calculate_index_from_urls` around the band
reads: a `none` window skips the scene, and an exception raised by
`_window_from_bbox` is caught here, both producing `(none, none, none)`. -/
def calculate_index_outer (wr : Except String (Option Window))
    (onWindow : Window → IndexResult) : IndexResult :=
  match wr with
  | .error _ => { data := none, mean := none, stats := none }
  | .ok none => { data := none, mean := none, stats := none }
  | .ok (some w) => onWindow w

/-! ## Concurrent scene processor (`compute_index_for_row` and the
worker pool / sequential fallback) -/

/-- `IndexType` from the source. -/
inductive IndexType
  | NDVI
  | EVI
deriving DecidableEq, Repr

/-- One scene record row handed to a worker. -/
structure SceneRow where
  id : String
  sceneDatetime : ℕ
  cloud_cover : ℚ
  collection : String
  nir_url : Option String
  red_url : Option String
  blue_url : Option String
deriving DecidableEq, Repr

/-- One worker result (the non-empty result dict). -/
structure SceneResult where
  date : ℕ
  cloud_cover : ℚ
  collection : String
  means : List (IndexType × ℚ)
deriving DecidableEq, Repr

/-- `compute_index_for_row`: `none` models the empty (falsy) dict returned
when a band URL is missing; otherwise the result carries the means of the
index kinds that computed successfully.  `calcIndex` is the (deterministic)
per-scene index computation `calculate_index_from_urls` partially applied
to the AOI and token. -/
def compute_index_for_row (calcIndex : IndexType → String → String → String → Option ℚ)
    (indexTypes : List IndexType) (row : SceneRow) : Option SceneResult :=
  match row.red_url, row.blue_url, row.nir_url with
  | some r, some b, some n =>
      some { date := row.sceneDatetime, cloud_cover := row.cloud_cover,
             collection := row.collection,
             means := indexTypes.filterMap
               (fun t => (calcIndex t r b n).map (fun m => (t, m))) }
  | _, _, _ => none

/-- The accumulated result list over a given processing order: each row is
processed independently and falsy results are dropped (`if result:`). -/
def gather_results (calcIndex : IndexType → String → String → String → Option ℚ)
    (indexTypes : List IndexType) (rows : List SceneRow) : List SceneResult :=
  rows.filterMap (compute_index_for_row calcIndex indexTypes)

/-- The worker pool followed by the sequential fallback: the parallel pass
accumulates results in completion order (an arbitrary permutation of the
submitted rows); if it yields nothing the same workload is re-run
strictly sequentially in submission order. -/
def process_all (calcIndex : IndexType → String → String → String → Option ℚ)
    (indexTypes : List IndexType) (rows completionOrder : List SceneRow) :
    List SceneResult :=
  if (gather_results calcIndex indexTypes completionOrder).isEmpty then
    gather_results calcIndex indexTypes rows
  else
    gather_results calcIndex indexTypes completionOrder

/-! ## Scene-cache fingerprint (`get_stac_cache_path`) -/

/-- Python's `round` (round-half-to-even) to an integer. -/
def bankersRound (q : ℚ) : ℤ :=
  let f := ⌊q⌋
  let r := q - (f : ℚ)
  if r < 1 / 2 then f
  else if 1 / 2 < r then f + 1
  else if f % 2 = 0 then f else f + 1

/-- `round(coord, 6)`. -/
def round6 (q : ℚ) : ℚ :=
  (bankersRound (q * 1000000) : ℚ) / 1000000

/-- The canonical fingerprint payload of `get_stac_cache_path`.  The
source serialises this payload with `json.dumps(..., sort_keys=True)` and
hashes it with SHA-256; the digest is modelled by the payload itself (the
hash is deterministic and assumed collision-free). -/
structure StacCacheKey where
  bbox : List ℚ
  startDate : String
  endDate : String
  max_cc : ℤ
  dataset : String
  tokenDigest : String
  version : String
deriving DecidableEq, Repr

/-- `get_stac_cache_path`: bbox coordinates are rounded to 1e-6 degree;
the token enters only through its digest. -/
def get_stac_cache_path (bbox : List ℚ) (startDate endDate : String)
    (max_cc : ℤ) (dataset token : String) : StacCacheKey :=
  { bbox := bbox.map round6
    startDate := startDate
    endDate := endDate
    max_cc := max_cc
    dataset := dataset
    tokenDigest := token
    version := "1" }

/-! ## In-memory scene-record cache
(`_get_stac_records_from_memory` / `_set_stac_records_in_memory`)

The claim is about aliasing, so dict identity is made explicit with a
small heap: records live at addresses, `dict(record)` is a copy to a
fresh address, and mutation is a heap write. -/

/-- The contents of one scene-record dict. -/
structure StacRecord where
  id : String
  sceneDatetime : String
  cloud_cover : Option ℚ
  collection : String
  nir_url : String
  red_url : String
  blue_url : String
deriving DecidableEq, Repr

/-- A heap of record dicts: contents by address, plus the next fresh
address.  Addresses `< next` are the allocated ones. -/
structure Heap where
  mem : ℕ → StacRecord
  next : ℕ

/-- Mutation of the dict at address `a`. -/
def Heap.write (h : Heap) (a : ℕ) (r : StacRecord) : Heap :=
  { mem := fun x => if x = a then r else h.mem x, next := h.next }

/-- Allocation of a fresh dict holding `r`. -/
def Heap.alloc (h : Heap) (r : StacRecord) : Heap :=
  { mem := fun x => if x = h.next then r else h.mem x, next := h.next + 1 }

/-- A sequence of mutations. -/
def writeAll : Heap → List (ℕ × StacRecord) → Heap
  | h, [] => h
  | h, w :: rest => writeAll (h.write w.1 w.2) rest

/-- `[dict(record) for record in rs]` / `tuple(dict(record) ...)`: copy
each record to a fresh address, returning the new addresses. -/
def copyRecords : Heap → List ℕ → Heap × List ℕ
  | h, [] => (h, [])
  | h, a :: rest =>
    let r := copyRecords (h.alloc (h.mem a)) rest
    (r.1, h.next :: r.2)

/-- `_STAC_MEMORY_CACHE_MAX_ENTRIES`. -/
def STAC_MEMORY_CACHE_MAX_ENTRIES : ℕ := 32

/-- `_set_stac_records_in_memory`: store copies of the given records under
the key, move the key to the most-recent end, evict the least-recently
used entry past the capacity (`popitem(last=False)`).  The entry list is
kept least-recent first; the most recent entry is last. -/
def _set_stac_records_in_memory (h : Heap) (cache : List (ℕ × List ℕ))
    (key : ℕ) (records : List ℕ) : Heap × List (ℕ × List ℕ) :=
  let copied := copyRecords h records
  let bumped := (cache.filter (fun p => decide (p.1 ≠ key))) ++ [(key, copied.2)]
  let evicted :=
    if STAC_MEMORY_CACHE_MAX_ENTRIES < bumped.length then bumped.drop 1 else bumped
  (copied.1, evicted)

/-- `_get_stac_records_from_memory`: on a hit, move the key to the
most-recent end and hand out a fresh list of fresh dict copies. -/
def _get_stac_records_from_memory (h : Heap) (cache : List (ℕ × List ℕ))
    (key : ℕ) : Heap × List (ℕ × List ℕ) × Option (List ℕ) :=
  match cache.find? (fun p => decide (p.1 = key)) with
  | none => (h, cache, none)
  | some entry =>
    let copied := copyRecords h entry.2
    (copied.1, (cache.filter (fun p => decide (p.1 ≠ key))) ++ [(key, entry.2)],
     some copied.2)

/-- A cache write immediately followed by a lookup of the same key. -/
def setThenGet (h : Heap) (cache : List (ℕ × List ℕ)) (key : ℕ)
    (records : List ℕ) : Heap × List (ℕ × List ℕ) × Option (List ℕ) :=
  let s := _set_stac_records_in_memory h cache key records
  _get_stac_records_from_memory s.1 s.2 key

/-- Concrete record used by the cache witnesses. -/
def rec0 : StacRecord :=
  { id := "HLS.S30.T10TDT", sceneDatetime := "2024-06-01T00:00:00Z",
    cloud_cover := some 5, collection := "HLSS30.v2.0",
    nir_url := "https://example/nir.tif", red_url := "https://example/red.tif",
    blue_url := "https://example/blue.tif" }

/-- A different record, used to overwrite dicts in the witness. -/
def rec1 : StacRecord :=
  { id := "mutated", sceneDatetime := "1970-01-01T00:00:00Z",
    cloud_cover := none, collection := "x",
    nir_url := "n", red_url := "r", blue_url := "b" }

/-- A one-record heap: address 0 holds `rec0`. -/
def h0 : Heap := { mem := fun _ => rec0, next := 1 }

/-! ## Anomaly detector: early senescence (`_detect_early_senescence`) -/

/-- One observed day of the dense daily NDVI series (after `dropna`):
calendar year, day of year, and the NDVI value. -/
structure DayPoint where
  year : ℤ
  doy : ℕ
  ndvi : ℚ
deriving DecidableEq, Repr

def EARLY_SENESCENCE_THRESHOLD : ℚ := 2 / 5
def EARLY_SENESCENCE_LOOKBACK : ℕ := 30
def EARLY_SENESCENCE_LEAD_DAYS : ℤ := 14

/-- The per-date test of the source's year loop: the value is below the
threshold and some strictly earlier observation of the same year within
the preceding 30 days was at/above the threshold. -/
def qualifying_drop (ys : List DayPoint) (p : DayPoint) : Bool :=
  decide (p.ndvi < EARLY_SENESCENCE_THRESHOLD) &&
  ys.any (fun q =>
    decide (q.doy < p.doy) && decide (p.doy ≤ q.doy + EARLY_SENESCENCE_LOOKBACK) &&
    decide (EARLY_SENESCENCE_THRESHOLD ≤ q.ndvi))

/-- First qualifying drop of one year's series (the loop `break`s at the
first hit), scanning in date order. -/
def first_drop (ys : List DayPoint) : Option DayPoint :=
  ys.find? (qualifying_drop ys)

/-- The distinct years of the series, in order of first appearance
(the series is chronological, so ascending). -/
def seriesYears (pts : List DayPoint) : List ℤ :=
  (pts.map (fun p => p.year)).dedup

/-- Per-year first drop dates, as `(year, day of year)`. -/
def senescence_drops (pts : List DayPoint) : List (ℤ × ℕ) :=
  (seriesYears pts).filterMap (fun y =>
    (first_drop (pts.filter (fun p => decide (p.year = y)))).map
      (fun p => (y, p.doy)))

/-- Insertion into a sorted list of naturals. -/
def insertNat (x : ℕ) : List ℕ → List ℕ
  | [] => [x]
  | y :: ys => if x ≤ y then x :: y :: ys else y :: insertNat x ys

/-- Insertion sort on naturals (`np.median` sorts its input). -/
def sortNat (l : List ℕ) : List ℕ :=
  l.foldr insertNat []

/-- `int(np.median(l))` for day-of-year lists: middle element for odd
length, truncated average of the two middle elements for even length. -/
def median_int (l : List ℕ) : ℤ :=
  let s := sortNat l
  let n := s.length
  if n = 0 then 0
  else if n % 2 = 1 then (s.getD (n / 2) 0 : ℤ)
  else (((s.getD (n / 2 - 1) 0 + s.getD (n / 2) 0) / 2 : ℕ) : ℤ)

/-- Outcome of the early-senescence signal. -/
structure SenescenceResult where
  triggered : Bool
  daysEarly : Option ℤ
  drops : List (ℤ × ℕ)
deriving DecidableEq, Repr

/-- `_detect_early_senescence`: per-year first drops, then the current
(maximum) year's day-of-year against the median of the prior years';
trigger when the current drop is at least 14 days earlier. -/
def _detect_early_senescence (pts : List DayPoint) : SenescenceResult :=
  let drops := senescence_drops pts
  match (drops.map Prod.fst).max? with
  | none => { triggered := false, daysEarly := none, drops := drops }
  | some currentYear =>
    match drops.find? (fun d => decide (d.1 = currentYear)) with
    | none => { triggered := false, daysEarly := none, drops := drops }
    | some current =>
      let baseline := drops.filter (fun d => decide (d.1 < currentYear))
      if baseline.isEmpty then
        { triggered := false, daysEarly := none, drops := drops }
      else
        let baselineDoy := median_int (baseline.map Prod.snd)
        let daysEarly := baselineDoy - (current.2 : ℤ)
        { triggered := decide (EARLY_SENESCENCE_LEAD_DAYS ≤ daysEarly),
          daysEarly := some daysEarly, drops := drops }

/-- One synthetic year: daily values from day-of-year 170 up to the drop
day, at 0.5 before the drop and 0.35 on the drop day. -/
def synthYear (y : ℤ) (dropDoy : ℕ) : List DayPoint :=
  (List.range (dropDoy - 170 + 1)).map (fun i =>
    { year := y, doy := 170 + i,
      ndvi := if 170 + i = dropDoy then 7 / 20 else 1 / 2 })

/-- The 3-year synthetic series of the claim: years 2021-2022 drop below
0.4 on day-of-year 200, year 2023 on day-of-year 180. -/
def senSeries : List DayPoint :=
  synthYear 2021 200 ++ synthYear 2022 200 ++ synthYear 2023 180

/-! ## Anomaly detector: daily resampling (`_build_daily_series`) -/

/-- Whether positions `a..b` of the daily series are all missing. -/
def all_none_range (xs : List (Option ℚ)) (a b : ℕ) : Bool :=
  ((List.range (b + 1 - a)).map (fun k => a + k)).all
    (fun p => (xs.getD p none).isNone)

/-- The forward fill-limit excess of `pandas`' `_interp_limit`: position
`p` has more than `limit` consecutive missing values behind it (the
window `[p-limit, p]` is all missing, or `p` lies in an all-missing
leading run). -/
def fw_exceed (limit : ℕ) (xs : List (Option ℚ)) (p : ℕ) : Bool :=
  (decide (limit ≤ p) && all_none_range xs (p - limit) p) ||
  (decide (p ≤ limit) && all_none_range xs 0 p)

/-- The backward counterpart, computed on the reversed series. -/
def bw_exceed (limit : ℕ) (xs : List (Option ℚ)) (p : ℕ) : Bool :=
  fw_exceed limit xs.reverse (xs.length - 1 - p)

/-- The last observed position strictly before `p`, with its value. -/
def prev_valid (xs : List (Option ℚ)) (p : ℕ) : Option (ℕ × ℚ) :=
  ((List.range p).reverse.filterMap
    (fun i => (xs.getD i none).map (fun v => (i, v)))).head?

/-- The first observed position strictly after `p`, with its value. -/
def next_valid (xs : List (Option ℚ)) (p : ℕ) : Option (ℕ × ℚ) :=
  (((List.range (xs.length - p - 1)).map (fun k => p + 1 + k)).filterMap
    (fun i => (xs.getD i none).map (fun v => (i, v)))).head?

/-- The `np.interp` value at position `p`: linear between the surrounding
observations, constant extrapolation at the edges. -/
def interp_value (xs : List (Option ℚ)) (p : ℕ) : Option ℚ :=
  match prev_valid xs p, next_valid xs p with
  | some (i, vi), some (j, vj) =>
      some (vi + (vj - vi) * ((p : ℚ) - (i : ℚ)) / ((j : ℚ) - (i : ℚ)))
  | some (_, vi), none => some vi
  | none, some (_, vj) => some vj
  | none, none => none

/-- `Series.interpolate(limit=7, limit_direction="both")` for a general
limit: a missing position is preserved exactly when it exceeds both the
forward and the backward fill limit; otherwise it receives the
interpolated value. -/
def interpolate_limit_both (limit : ℕ) (xs : List (Option ℚ)) :
    List (Option ℚ) :=
  (List.range xs.length).map (fun p =>
    match xs.getD p none with
    | some v => some v
    | none =>
        if fw_exceed limit xs p && bw_exceed limit xs p then none
        else interp_value xs p)

/-- `series.resample("D").mean()`: one slot per day from the first to the
last observed day, averaging same-day observations, `none` on days with
no observation. -/
def resample_daily (obs : List (ℕ × ℚ)) : List (Option ℚ) :=
  if obs.isEmpty then []
  else
    let days := obs.map Prod.fst
    let lo := days.foldl min (days.headD 0)
    let hi := days.foldl max (days.headD 0)
    (List.range (hi + 1 - lo)).map (fun k =>
      let day := lo + k
      let vals := obs.filterMap (fun o => if o.1 = day then some o.2 else none)
      if vals.length = 0 then none
      else some (vals.sum / (vals.length : ℚ)))

/-- `_build_daily_series`: dense daily resampling followed by
interpolation with fill limit 7 in both directions. -/
def _build_daily_series (obs : List (ℕ × ℚ)) : List (Option ℚ) :=
  interpolate_limit_both 7 (resample_daily obs)

/-! ## Anomaly detector: weatherless drop (`_detect_weatherless_drop`) -/

/-- One day of the normalised weather series. -/
structure WeatherDay where
  date : ℕ
  temperature : Option ℚ
  wind_speed : Option ℚ
  cloudcover : Option ℚ
  clarity : Option ℚ
deriving DecidableEq, Repr

/-- Insertion into a sorted list of rationals. -/
def insertQ (x : ℚ) : List ℚ → List ℚ
  | [] => [x]
  | y :: ys => if x ≤ y then x :: y :: ys else y :: insertQ x ys

/-- Insertion sort on rationals. -/
def sortQ (l : List ℚ) : List ℚ :=
  l.foldr insertQ []

/-- `np.nanpercentile(values, q)` with the default linear interpolation:
index `h = (n-1)*q/100` into the sorted values, linear between the two
neighbouring order statistics. -/
def nan_percentile (values : List ℚ) (q : ℚ) : ℚ :=
  let s := sortQ values
  let n := s.length
  if n = 0 then 0
  else
    let h : ℚ := ((n : ℚ) - 1) * q / 100
    let i : ℕ := (⌊h⌋).toNat
    let lo := s.getD i 0
    let hi := s.getD (min (i + 1) (n - 1)) 0
    lo + (h - (i : ℚ)) * (hi - lo)

/-- The 10th/90th percentile band of one weather variable over the whole
weather series, `none` when the variable has no values. -/
def percentile_band (weather : List WeatherDay)
    (field : WeatherDay → Option ℚ) : Option (ℚ × ℚ) :=
  let vals := weather.filterMap field
  if vals.isEmpty then none
  else some (nan_percentile vals 10, nan_percentile vals 90)

/-- The variable's value on the given date after the left merge on date. -/
def weather_on (weather : List WeatherDay) (d : ℕ)
    (field : WeatherDay → Option ℚ) : Option ℚ :=
  match weather.find? (fun w => decide (w.date = d)) with
  | none => none
  | some w => field w

/-- The source's extreme-weather test for one date: temperature outside
its band on either side, wind speed at/above its 90th percentile, cloud
cover at/above its 90th percentile, clarity at/below its 10th
percentile. -/
def is_extreme (weather : List WeatherDay) (d : ℕ) : Bool :=
  (match percentile_band weather (fun w => w.temperature),
         weather_on weather d (fun w => w.temperature) with
   | some (lo, hi), some t => decide (t ≤ lo) || decide (hi ≤ t)
   | _, _ => false) ||
  (match percentile_band weather (fun w => w.wind_speed),
         weather_on weather d (fun w => w.wind_speed) with
   | some (_, hi), some w => decide (hi ≤ w)
   | _, _ => false) ||
  (match percentile_band weather (fun w => w.cloudcover),
         weather_on weather d (fun w => w.cloudcover) with
   | some (_, hi), some c => decide (hi ≤ c)
   | _, _ => false) ||
  (match percentile_band weather (fun w => w.clarity),
         weather_on weather d (fun w => w.clarity) with
   | some (lo, _), some c => decide (c ≤ lo)
   | _, _ => false)

def NDVI_DROP_THRESHOLD : ℚ := 1 / 10
def RECENT_WINDOW_DAYS : ℕ := 60

/-- Insertion into an observation list sorted by date. -/
def insertByDate (x : ℕ × ℚ) : List (ℕ × ℚ) → List (ℕ × ℚ)
  | [] => [x]
  | y :: ys => if x.1 ≤ y.1 then x :: y :: ys else y :: insertByDate x ys

/-- `sort_values("date")` on the observation list. -/
def sortByDate (l : List (ℕ × ℚ)) : List (ℕ × ℚ) :=
  l.foldr insertByDate []

/-- The unexplained-drop candidates, in date order: successive
observations at most 30 days apart whose value decreases by strictly
more than the drop threshold, on a date with no extreme weather.  Each
candidate carries its date and signed delta. -/
def drop_candidates (obs : List (ℕ × ℚ)) (weather : List WeatherDay) :
    List (ℕ × ℚ) :=
  (obs.zip (obs.drop 1)).filterMap (fun pr =>
    let prev := pr.1
    let cur := pr.2
    if decide (cur.2 - prev.2 < -NDVI_DROP_THRESHOLD) &&
       decide (cur.1 - prev.1 ≤ 30) && !(is_extreme weather cur.1)
    then some (cur.1, cur.2 - prev.2) else none)

/-- Outcome of the weatherless-drop signal. -/
structure DropResult where
  triggered : Bool
  detectedDate : Option ℕ
  dropMagnitude : Option ℚ
  flaggedDates : List ℕ
deriving DecidableEq, Repr

/-- `_detect_weatherless_drop`: needs at least two observations and a
non-empty weather series; reports the most recent unexplained drop and
triggers only when it is within 60 days of the latest sample. -/
def _detect_weatherless_drop (obsRaw : List (ℕ × ℚ))
    (weather : List WeatherDay) : DropResult :=
  if obsRaw.length < 2 then
    { triggered := false, detectedDate := none, dropMagnitude := none,
      flaggedDates := [] }
  else
    let obs := sortByDate obsRaw
    if weather.isEmpty then
      { triggered := false, detectedDate := none, dropMagnitude := none,
        flaggedDates := [] }
    else
      let flagged := drop_candidates obs weather
      match flagged.getLast? with
      | none =>
          { triggered := false, detectedDate := none, dropMagnitude := none,
            flaggedDates := flagged.map Prod.fst }
      | some ev =>
          let dates := obs.map Prod.fst
          let latest := dates.foldl max (dates.headD 0)
          { triggered := decide (latest - ev.1 ≤ RECENT_WINDOW_DAYS),
            detectedDate := some ev.1,
            dropMagnitude := some |ev.2|,
            flaggedDates := flagged.map Prod.fst }

/-- Observation series with a single 0.15 drop at date 40 (gap 10 days). -/
def obsA : List (ℕ × ℚ) :=
  [(0, 1/2), (10, 11/20), (20, 1/2), (30, 13/25), (40, 37/100)]

/-- Observation series with a decrease of exactly 0.1 at date 10. -/
def obsExact : List (ℕ × ℚ) :=
  [(0, 3/5), (10, 1/2)]

/-- Weather where the drop date's wind speed (2.5) is below its 90th
percentile and every variable on that date is inside its band. -/
def weatherA : List WeatherDay :=
  [ { date := 0, temperature := some 10, wind_speed := some 1,
      cloudcover := some 30, clarity := some 70 },
    { date := 10, temperature := some 12, wind_speed := some 2,
      cloudcover := some 40, clarity := some 60 },
    { date := 20, temperature := some 14, wind_speed := some 3,
      cloudcover := some 50, clarity := some 50 },
    { date := 30, temperature := some 16, wind_speed := some 4,
      cloudcover := some 60, clarity := some 40 },
    { date := 40, temperature := some 13, wind_speed := some (5/2),
      cloudcover := some 45, clarity := some 55 } ]

/-- Same weather, but the drop date's wind speed (8) is at/above the 95th
percentile of the wind series. -/
def weatherHigh : List WeatherDay :=
  [ { date := 0, temperature := some 10, wind_speed := some 1,
      cloudcover := some 30, clarity := some 70 },
    { date := 10, temperature := some 12, wind_speed := some 2,
      cloudcover := some 40, clarity := some 60 },
    { date := 20, temperature := some 14, wind_speed := some 3,
      cloudcover := some 50, clarity := some 50 },
    { date := 30, temperature := some 16, wind_speed := some 4,
      cloudcover := some 60, clarity := some 40 },
    { date := 40, temperature := some 13, wind_speed := some 8,
      cloudcover := some 45, clarity := some 55 } ]

/-- Same weather, but the drop date's wind speed (0.5) is below the 10th
percentile of the wind series: outside the band on the low side. -/
def weatherC : List WeatherDay :=
  [ { date := 0, temperature := some 10, wind_speed := some 1,
      cloudcover := some 30, clarity := some 70 },
    { date := 10, temperature := some 12, wind_speed := some 2,
      cloudcover := some 40, clarity := some 60 },
    { date := 20, temperature := some 14, wind_speed := some 3,
      cloudcover := some 50, clarity := some 50 },
    { date := 30, temperature := some 16, wind_speed := some 4,
      cloudcover := some 60, clarity := some 40 },
    { date := 40, temperature := some 13, wind_speed := some (1/2),
      cloudcover := some 45, clarity := some 55 } ]

/-- Neutral weather for the exact-0.1 drop: every variable on date 10 is
strictly inside its band. -/
def weatherB : List WeatherDay :=
  [ { date := 0, temperature := some 10, wind_speed := some 1,
      cloudcover := some 30, clarity := some 70 },
    { date := 5, temperature := some 20, wind_speed := some 3,
      cloudcover := some 50, clarity := some 50 },
    { date := 10, temperature := some 15, wind_speed := some 2,
      cloudcover := some 40, clarity := some 60 } ]

/-! ### Concrete fixtures used by witnesses and counterexamples -/

/-- A 10×10 raster at the origin with unit pixels. -/
def demoRaster : RasterGrid :=
  { bounds := { left := 0, bottom := 0, right := 10, top := 10 },
    pixelWidth := 1, pixelHeight := 1 }

/-- A complete scene row. -/
def rowX : SceneRow :=
  { id := "S1", sceneDatetime := 1, cloud_cover := 5, collection := "HLSS30.v2.0",
    nir_url := some "n1", red_url := some "r1", blue_url := some "b1" }

/-- A second complete scene row. -/
def rowY : SceneRow :=
  { id := "S2", sceneDatetime := 2, cloud_cover := 7, collection := "HLSL30.v2.0",
    nir_url := some "n2", red_url := some "r2", blue_url := some "b2" }

/-- A deterministic index computation for the processor witness. -/
def calcConst : IndexType → String → String → String → Option ℚ :=
  fun _ _ _ _ => some (1/2)

/-- Mutations of both the record list handed out by the cache (address 2)
and the records passed in at insertion (address 0). -/
def ws0 : List (ℕ × StacRecord) := [(2, rec1), (0, rec1)]

attribute [local semireducible] Rat.add Rat.mul Rat.inv Rat.sub

/-! ## Helper lemmas -/

/-- Every cell of the NDVI grid is an `ndviCell` of some pair of band
cells. -/
theorem mem_ndviGrid {red nir : List (Option ℚ)} {c : Option ℚ}
    (h : c ∈ ndviGrid red nir) : ∃ r n, c = ndviCell r n := by
  induction red generalizing nir with
  | nil => simp [ndviGrid] at h
  | cons r rs ih =>
    cases nir with
    | nil => simp [ndviGrid] at h
    | cons n ns =>
      simp only [ndviGrid, List.zipWith_cons_cons, List.mem_cons] at h
      rcases h with h | h
      · exact ⟨r, n, h⟩
      · exact ih h

/-- Mapping with pointwise-equal functions gives equal lists. -/
theorem map_mem_congr {α β : Type} {l : List α} {f g : α → β}
    (hfg : ∀ a ∈ l, f a = g a) : l.map f = l.map g := by
  induction l with
  | nil => rfl
  | cons a t ih =>
    simp only [List.map_cons, hfg a (List.mem_cons_self a t)]
    rw [ih (fun x hx => hfg x (List.mem_cons_of_mem a hx))]

/-- Looking up an inserted entry. -/
theorem cacheLookup_insert (cache : List (ℕ × IndexCacheEntry)) (key k : ℕ)
    (e : IndexCacheEntry) :
    cacheLookup (cacheInsert cache key e) k =
      if key = k then some e else cacheLookup cache k := by
  unfold cacheLookup cacheInsert
  rcases eq_or_ne key k with h | h
  · subst h
    simp [List.find?]
  · simp [List.find?, h]

/-! ## C1: NDVI formula and masked undefined cells -/

/-- C1: NDVI is computed elementwise as `(nir - red) / (nir + red)`; for
`nir = 0.5`, `red = 0.1` the value is `0.667` within `1e-3`; every cell
with `nir + red = 0` is masked rather than propagated, so every valid
cell that enters the mean carries a well-defined quotient and the mean
over valid cells is their exact arithmetic mean. -/
theorem ndvi_formula_and_masking :
    (ndviCell (some (1/10)) (some (1/2)) = some (2/3) ∧
      |(2 : ℚ)/3 - 667/1000| ≤ 1/1000) ∧
    (∀ r n : ℚ, n + r = 0 → ndviCell (some r) (some n) = none) ∧
    (∀ red nir : List (Option ℚ), ∀ v ∈ validValues (ndviGrid red nir),
      ∃ r n : ℚ, n + r ≠ 0 ∧ v = (n - r) / (n + r)) ∧
    (∀ red nir : List (Option ℚ), ∀ m, meanIndex (ndviGrid red nir) = some m →
      m = (validValues (ndviGrid red nir)).sum /
        ((validValues (ndviGrid red nir)).length : ℚ)) := by
  refine ⟨⟨by decide, by decide⟩, ?_, ?_, ?_⟩
  · intro r n h
    simp [ndviCell, h]
  · intro red nir v hv
    rw [validValues, List.mem_filterMap] at hv
    obtain ⟨c, hc, hcv⟩ := hv
    obtain ⟨ro, no, rfl⟩ := mem_ndviGrid hc
    cases ro with
    | none => simp [ndviCell] at hcv
    | some r =>
      cases no with
      | none => simp [ndviCell] at hcv
      | some n =>
        simp only [ndviCell, id] at hcv
        by_cases h0 : n + r = 0
        · simp [h0] at hcv
        · rw [if_neg h0] at hcv
          exact ⟨r, n, h0, (Option.some.inj hcv).symm⟩
  · intro red nir m hm
    by_cases h : (validValues (ndviGrid red nir)).length = 0
    · simp [meanIndex, h] at hm
    · simp only [meanIndex, if_neg h] at hm
      exact (Option.some.inj hm).symm

/-- C1 witness: the masked-cell and quotient facts at concrete inputs. -/
theorem ndvi_formula_and_masking_witness :
    ndviCell (some (0 : ℚ)) (some 0) = none ∧
    (∃ r n : ℚ, n + r ≠ 0 ∧ (2 : ℚ)/3 = (n - r) / (n + r)) :=
  ⟨ndvi_formula_and_masking.2.1 0 0 (by norm_num),
   ndvi_formula_and_masking.2.2.1 [some (1/10)] [some (1/2)] (2/3) (by decide)⟩

/-! ## C2: zero-validity results are not cached -/

/-- C2: when the combined validity mask has zero valid cells the
computation returns `(none, none, none)` and leaves the index cache
untouched, and the invariant that every cached entry has at least one
valid cell is preserved by every invocation — so a zero-validity result
can never later be served as a cache hit. -/
theorem zero_validity_not_cached :
    (∀ (key : ℕ) (red nir : List (Option ℚ)) cache,
      cacheLookup cache key = none →
      (validValues (ndviGrid red nir)).length = 0 →
      calculate_index_from_urls key red nir cache =
        ({ data := none, mean := none, stats := none }, cache)) ∧
    (∀ (key : ℕ) (red nir : List (Option ℚ)) cache,
      (∀ k e, cacheLookup cache k = some e → (validValues e.data).length ≠ 0) →
      ∀ k e, cacheLookup (calculate_index_from_urls key red nir cache).2 k = some e →
        (validValues e.data).length ≠ 0) := by
  constructor
  · intro key red nir cache hmiss hzero
    simp only [calculate_index_from_urls, hmiss]
    split_ifs <;> rfl
  · intro key red nir cache hinv k e hlook
    simp only [calculate_index_from_urls] at hlook
    cases hc : cacheLookup cache key with
    | some e0 =>
      rw [hc] at hlook
      exact hinv k e hlook
    | none =>
      rw [hc] at hlook
      split_ifs at hlook with h1 h2 h3
      · exact hinv k e hlook
      · exact hinv k e hlook
      · exact hinv k e hlook
      · rw [cacheLookup_insert] at hlook
        split_ifs at hlook with hk
        · cases hlook
          simpa using h3
        · exact hinv k e hlook

/-- C2 witness: an all-masked 1-cell read caches nothing and returns the
`none` triple. -/
theorem zero_validity_not_cached_witness :
    calculate_index_from_urls 0 [some 0] [some 0] [] =
      ({ data := none, mean := none, stats := none }, []) :=
  zero_validity_not_cached.1 0 [some 0] [some 0] [] rfl (by decide)

/-! ## C4: parallel and sequential processing agree as multisets -/

/-- C4: for any completion order (any worker budget), the bounded pool
followed by the sequential fallback produces the same multiset of
successful scene results as strictly sequential processing. -/
theorem parallel_matches_sequential
    (calcIndex : IndexType → String → String → String → Option ℚ)
    (indexTypes : List IndexType) (rows completionOrder : List SceneRow)
    (h : rows.Perm completionOrder) :
    Multiset.ofList (process_all calcIndex indexTypes rows completionOrder) =
      Multiset.ofList (gather_results calcIndex indexTypes rows) := by
  unfold process_all
  split_ifs with he
  · rfl
  · exact Quot.sound (h.filterMap (compute_index_for_row calcIndex indexTypes)).symm

/-- C4 witness: a 2-scene workload processed in reversed completion
order. -/
theorem parallel_matches_sequential_witness :
    Multiset.ofList (process_all calcConst [IndexType.NDVI] [rowX, rowY] [rowY, rowX]) =
      Multiset.ofList (gather_results calcConst [IndexType.NDVI] [rowX, rowY]) :=
  parallel_matches_sequential calcConst [IndexType.NDVI] [rowX, rowY] [rowY, rowX]
    (List.Perm.swap rowY rowX [])

/-! ## C5: early senescence on the 3-year synthetic series -/

/-- C5: on the 3-year daily series whose years 2021-2022 first drop below
0.4 (with the 30-day at/above-0.4 lookback satisfied) on day-of-year 200
and whose year 2023 drops on day-of-year 180, the early-senescence
detector finds exactly those per-year first drop dates and triggers with
`daysEarly = 20` (the median prior day-of-year 200 minus 180, at least
the 14-day lead). -/
theorem early_senescence_triggers :
    _detect_early_senescence senSeries =
      { triggered := true, daysEarly := some 20,
        drops := [(2021, 200), (2022, 200), (2023, 180)] } := by decide

/-! ## C6: daily interpolation gap limits -/

/-- C6 counterexample: observations on days 0 and 9 leave a gap of 8
missing days — longer than 7 — yet `_build_daily_series` fills the gap
completely, contradicting the claim that gaps longer than 7 days are
left entirely unfilled. -/
theorem interpolation_long_gap_filled :
    resample_daily [(0, (0 : ℚ)), (9, 9)] =
      [some 0] ++ List.replicate 8 none ++ [some 9] ∧
    _build_daily_series [(0, (0 : ℚ)), (9, 9)] =
      (List.range 10).map (fun k => some (k : ℚ)) := by decide

/-- C6 (amended): the fill limit is distance-to-observation per side, not
gap length: a 7-day gap is filled, an 8-day and even a 14-day gap are
still filled completely (each missing day is within 7 days of an
observation on some side), and in a 15-day gap exactly the middle day —
more than 7 days from both ends — stays missing. -/
theorem interpolation_gap_fill_distance :
    (_build_daily_series [(0, (0 : ℚ)), (8, 8)]).all Option.isSome = true ∧
    (_build_daily_series [(0, (0 : ℚ)), (15, 15)]).all Option.isSome = true ∧
    _build_daily_series [(0, (0 : ℚ)), (16, 16)] =
      (List.range 17).map (fun k => if k = 8 then none else some (k : ℚ)) := by
  decide

/-! ## C3: raster window resolver error behaviour -/

/-- C3 counterexample: when reprojection fails, the window resolver does
not return `none` — the source logs and re-raises, so the exception
crosses the `_window_from_bbox` boundary to its caller. -/
theorem window_from_bbox_reprojection_raises :
    window_from_bbox (.error "reprojection failed") demoRaster =
      .error "reprojection failed" ∧
    window_from_bbox (.error "reprojection failed") demoRaster ≠ .ok none :=
  ⟨rfl, fun h => Except.noConfusion h⟩

/-- C3 (amended): when reprojection succeeds the resolver never raises —
it returns `none` for an empty intersection with the raster bounds (and
for a degenerate rounded window) and `some` window otherwise; a
reprojection failure is re-raised out of the resolver and caught by the
enclosing index computation, which turns it into the `(none, none,
none)` skip result for its caller. -/
theorem window_from_bbox_contract :
    (∀ (rb : Bounds) (src : RasterGrid),
      ∃ w, window_from_bbox (.ok rb) src = .ok w) ∧
    (∀ (rb : Bounds) (src : RasterGrid),
      ¬(max rb.left src.bounds.left < min rb.right src.bounds.right ∧
        max rb.bottom src.bounds.bottom < min rb.top src.bounds.top) →
      window_from_bbox (.ok rb) src = .ok none) ∧
    (∀ (e : String) (onWindow : Window → IndexResult),
      calculate_index_outer (.error e) onWindow =
        { data := none, mean := none, stats := none }) := by
  refine ⟨?_, ?_, ?_⟩
  · intro rb src
    simp only [window_from_bbox]
    split_ifs with h1 h2
    · exact ⟨none, rfl⟩
    · exact ⟨some _, rfl⟩
    · exact ⟨none, rfl⟩
  · intro rb src h
    simp only [window_from_bbox]
    rw [if_neg h]
  · intro e onWindow
    rfl

/-- C3 witness: a disjoint AOI yields `.ok none`, not an exception. -/
theorem window_from_bbox_contract_witness :
    window_from_bbox (.ok { left := 20, bottom := 20, right := 30, top := 30 })
      demoRaster = .ok none :=
  window_from_bbox_contract.2.1
    { left := 20, bottom := 20, right := 30, top := 30 } demoRaster (by decide)

/-! ## C7: weatherless drop and the extreme-weather bands -/

/-- C7 counterexample: the claim fails in both directions.  In `weatherC`
the drop date's wind speed (0.5) is below the wind series' 10th
percentile — outside the 10th/90th band — yet the detector still flags
that drop as unexplained and triggers, because the source checks wind
only against the 90th percentile.  And in `obsExact` a decrease of
exactly 0.1 with no extreme weather on the date is not flagged at all,
because the source requires a decrease strictly greater than 0.1. -/
theorem weatherless_drop_counterexample :
    weather_on weatherC 40 (fun w => w.wind_speed) = some (1/2) ∧
    (1/2 : ℚ) < nan_percentile (weatherC.filterMap (fun w => w.wind_speed)) 10 ∧
    (_detect_weatherless_drop obsA weatherC).flaggedDates = [40] ∧
    (_detect_weatherless_drop obsA weatherC).triggered = true ∧
    is_extreme weatherB 10 = false ∧
    (_detect_weatherless_drop obsExact weatherB).flaggedDates = [] ∧
    (_detect_weatherless_drop obsExact weatherB).triggered = false := by decide

/-- C7 (amended): a successive-observation decrease of strictly more
than 0.1 (gap at most 30 days) is flagged as unexplained exactly when
none of these holds: temperature at/below its 10th or at/above its 90th
percentile, wind speed at/above its 90th percentile, cloud cover
at/above its 90th percentile, clarity at/below its 10th percentile.  The
claim's scenarios behave as stated: a 0.15 drop with wind below the 90th
percentile and temperature inside the band triggers, and the identical
drop with wind at/above the 95th percentile does not trigger. -/
theorem weatherless_drop_amended :
    ((_detect_weatherless_drop obsA weatherA).triggered = true ∧
     (_detect_weatherless_drop obsA weatherA).detectedDate = some 40 ∧
     (_detect_weatherless_drop obsA weatherA).dropMagnitude = some (3/20) ∧
     weather_on weatherA 40 (fun w => w.wind_speed) = some (5/2) ∧
     (5/2 : ℚ) < nan_percentile (weatherA.filterMap (fun w => w.wind_speed)) 90) ∧
    ((_detect_weatherless_drop obsA weatherHigh).triggered = false ∧
     (_detect_weatherless_drop obsA weatherHigh).flaggedDates = [] ∧
     nan_percentile (weatherHigh.filterMap (fun w => w.wind_speed)) 95 ≤ 8) := by
  decide

/-! ## C8: bbox normalisation contract -/

/-- Success characterisation of `normalize_bbox` on a four-coordinate
input. -/
theorem normalize_bbox_ok_iff (lon1 lat1 lon2 lat2 : ℚ) (r : List ℚ) :
    normalize_bbox [lon1, lat1, lon2, lat2] = .ok r ↔
      ((-180 ≤ min lon1 lon2 ∧ min lon1 lon2 ≤ 180 ∧
        -180 ≤ max lon1 lon2 ∧ max lon1 lon2 ≤ 180) ∧
       (-90 ≤ min lat1 lat2 ∧ min lat1 lat2 ≤ 90 ∧
        -90 ≤ max lat1 lat2 ∧ max lat1 lat2 ≤ 90) ∧
       ¬(min lon1 lon2 = max lon1 lon2 ∨ min lat1 lat2 = max lat1 lat2) ∧
       r = [min lon1 lon2, min lat1 lat2, max lon1 lon2, max lat1 lat2]) := by
  constructor
  · intro h
    simp only [normalize_bbox] at h
    split_ifs at h with h1 h2 h3
    cases h
    exact ⟨h1, h2, h3, rfl⟩
  · rintro ⟨c1, c2, c3, rfl⟩
    simp only [normalize_bbox]
    rw [if_neg (not_not.mpr c1), if_neg (not_not.mpr c2), if_neg c3]

/-- C8: `normalize_bbox` is idempotent on every input it accepts,
corrects swapped min/max per axis, and rejects every zero-area or
out-of-range quadruple with the `InvalidAOI` error instead of returning
a box. -/
theorem normalize_bbox_contract :
    (∀ b r, normalize_bbox b = .ok r → normalize_bbox r = .ok r) ∧
    (∀ (lon1 lat1 lon2 lat2 : ℚ) r,
      normalize_bbox [lon1, lat1, lon2, lat2] = .ok r →
      r = [min lon1 lon2, min lat1 lat2, max lon1 lon2, max lat1 lat2]) ∧
    (∀ lon1 lat1 lon2 lat2 : ℚ,
      (lon1 = lon2 ∨ lat1 = lat2 ∨
        180 < |lon1| ∨ 180 < |lon2| ∨ 90 < |lat1| ∨ 90 < |lat2|) →
      ∀ r, normalize_bbox [lon1, lat1, lon2, lat2] ≠ .ok r) := by
  refine ⟨?_, ?_, ?_⟩
  · intro b r h
    match b with
    | [] => simp [normalize_bbox] at h
    | [_] => simp [normalize_bbox] at h
    | [_, _] => simp [normalize_bbox] at h
    | [_, _, _] => simp [normalize_bbox] at h
    | _ :: _ :: _ :: _ :: _ :: _ => simp [normalize_bbox] at h
    | [lon1, lat1, lon2, lat2] =>
      rw [normalize_bbox_ok_iff] at h
      obtain ⟨c1, c2, c3, rfl⟩ := h
      rw [normalize_bbox_ok_iff]
      have hlon : min lon1 lon2 ≤ max lon1 lon2 := min_le_max
      have hlat : min lat1 lat2 ≤ max lat1 lat2 := min_le_max
      rw [min_eq_left hlon, max_eq_right hlon, min_eq_left hlat, max_eq_right hlat]
      exact ⟨c1, c2, c3, rfl⟩
  · intro lon1 lat1 lon2 lat2 r h
    exact ((normalize_bbox_ok_iff lon1 lat1 lon2 lat2 r).mp h).2.2.2
  · intro lon1 lat1 lon2 lat2 hbad r h
    obtain ⟨c1, c2, c3, _⟩ := (normalize_bbox_ok_iff lon1 lat1 lon2 lat2 r).mp h
    have hminlon := min_le_left lon1 lon2
    have hminlon2 := min_le_right lon1 lon2
    have hmaxlon := le_max_left lon1 lon2
    have hmaxlon2 := le_max_right lon1 lon2
    have hminlat := min_le_left lat1 lat2
    have hminlat2 := min_le_right lat1 lat2
    have hmaxlat := le_max_left lat1 lat2
    have hmaxlat2 := le_max_right lat1 lat2
    rcases hbad with hb | hb | hb | hb | hb | hb
    · exact c3 (Or.inl (by rw [hb, min_self, max_self]))
    · exact c3 (Or.inr (by rw [hb, min_self, max_self]))
    · exact absurd hb (not_lt.mpr (abs_le.mpr
        ⟨by linarith [c1.1], by linarith [c1.2.2.2]⟩))
    · exact absurd hb (not_lt.mpr (abs_le.mpr
        ⟨by linarith [c1.1], by linarith [c1.2.2.2]⟩))
    · exact absurd hb (not_lt.mpr (abs_le.mpr
        ⟨by linarith [c2.1], by linarith [c2.2.2.2]⟩))
    · exact absurd hb (not_lt.mpr (abs_le.mpr
        ⟨by linarith [c2.1], by linarith [c2.2.2.2]⟩))

/-- C8 witness: swapped longitudes are corrected and the result is a
fixed point. -/
theorem normalize_bbox_contract_witness :
    normalize_bbox [1, 2, 3, 4] = .ok [1, 2, 3, 4] :=
  normalize_bbox_contract.1 [3, 2, 1, 4] [1, 2, 3, 4] (by rfl)

/-! ## C9: scene-cache fingerprint -/

/-- C9 counterexample: longitudes 1.0000004 and 1.0000006 agree through
the 6th decimal place (equal truncations at 1e-6, and they differ by
less than 1e-6), yet they round to different 1e-6 values, so the two
requests get different fingerprint paths. -/
theorem stac_fingerprint_rounding_counterexample :
    (⌊(10000004/10000000 : ℚ) * 1000000⌋ = ⌊(10000006/10000000 : ℚ) * 1000000⌋) ∧
    |(10000004/10000000 : ℚ) - 10000006/10000000| < 1/1000000 ∧
    get_stac_cache_path [10000004/10000000, 2, 3, 4]
        "2024-01-01" "2024-12-31" 20 "Both" "tok" ≠
      get_stac_cache_path [10000006/10000000, 2, 3, 4]
        "2024-01-01" "2024-12-31" 20 "Both" "tok" := by decide

/-- C9 (amended): two requests whose AOI coordinates have equal 1e-6
roundings get the identical fingerprint path; requests that differ in
dataset selector or in max cloud cover get different paths. -/
theorem stac_fingerprint_contract :
    (∀ (b1 b2 : List ℚ) (s e : String) (m : ℤ) (d t : String),
      b1.map round6 = b2.map round6 →
      get_stac_cache_path b1 s e m d t = get_stac_cache_path b2 s e m d t) ∧
    (∀ (b : List ℚ) (s e : String) (m : ℤ) (d1 d2 t : String),
      d1 ≠ d2 →
      get_stac_cache_path b s e m d1 t ≠ get_stac_cache_path b s e m d2 t) ∧
    (∀ (b : List ℚ) (s e : String) (m1 m2 : ℤ) (d t : String),
      m1 ≠ m2 →
      get_stac_cache_path b s e m1 d t ≠ get_stac_cache_path b s e m2 d t) := by
  refine ⟨?_, ?_, ?_⟩
  · intro b1 b2 s e m d t h
    simp [get_stac_cache_path, h]
  · intro b s e m d1 d2 t h hk
    exact h (congrArg StacCacheKey.dataset hk)
  · intro b s e m1 m2 d t h hk
    exact h (congrArg StacCacheKey.max_cc hk)

/-- C9 witness: coordinates that round alike share the path. -/
theorem stac_fingerprint_contract_witness :
    get_stac_cache_path [10000004/10000000, 2, 3, 4] "s" "e" 20 "Both" "t" =
      get_stac_cache_path [10000002/10000000, 2, 3, 4] "s" "e" 20 "Both" "t" :=
  stac_fingerprint_contract.1 [10000004/10000000, 2, 3, 4]
    [10000002/10000000, 2, 3, 4] "s" "e" 20 "Both" "t" (by decide)

/-! ## C10: the in-memory scene-record cache stores and returns copies -/

theorem copyRecords_next (h : Heap) (l : List ℕ) :
    (copyRecords h l).1.next = h.next + l.length := by
  induction l generalizing h with
  | nil => rfl
  | cons a rest ih =>
    simp only [copyRecords]
    rw [ih]
    simp only [Heap.alloc, List.length_cons]
    omega

theorem copyRecords_length (h : Heap) (l : List ℕ) :
    (copyRecords h l).2.length = l.length := by
  induction l generalizing h with
  | nil => rfl
  | cons a rest ih =>
    simp only [copyRecords, List.length_cons]
    rw [ih]

theorem copyRecords_mem_lt (h : Heap) (l : List ℕ) (a : ℕ) (ha : a < h.next) :
    (copyRecords h l).1.mem a = h.mem a := by
  induction l generalizing h with
  | nil => rfl
  | cons b rest ih =>
    simp only [copyRecords]
    rw [ih (h.alloc (h.mem b)) (Nat.lt_succ_of_lt ha)]
    simp only [Heap.alloc]
    exact if_neg (Nat.ne_of_lt ha)

theorem copyRecords_addrs_bound (h : Heap) (l : List ℕ) :
    ∀ x ∈ (copyRecords h l).2, h.next ≤ x ∧ x < h.next + l.length := by
  induction l generalizing h with
  | nil => intro x hx; simp [copyRecords] at hx
  | cons b rest ih =>
    intro x hx
    simp only [copyRecords, List.mem_cons] at hx
    rcases hx with rfl | hx
    · exact ⟨le_refl _, by simp only [List.length_cons]; omega⟩
    · have hb : h.next + 1 ≤ x ∧ x < h.next + 1 + rest.length :=
        ih (h.alloc (h.mem b)) x hx
      simp only [List.length_cons]
      omega

theorem copyRecords_contents (h : Heap) (l : List ℕ)
    (hl : ∀ a ∈ l, a < h.next) :
    (copyRecords h l).2.map (copyRecords h l).1.mem = l.map h.mem := by
  induction l generalizing h with
  | nil => rfl
  | cons b rest ih =>
    simp only [copyRecords, List.map_cons]
    have hhead : (copyRecords (h.alloc (h.mem b)) rest).1.mem h.next = h.mem b := by
      rw [copyRecords_mem_lt (h.alloc (h.mem b)) rest h.next (Nat.lt_succ_self _)]
      simp [Heap.alloc]
    have htail := ih (h.alloc (h.mem b))
      (fun a ha => Nat.lt_succ_of_lt (hl a (List.mem_cons_of_mem b ha)))
    rw [hhead, htail]
    have hcong : rest.map (h.alloc (h.mem b)).mem = rest.map h.mem :=
      map_mem_congr (fun a ha => by
        simp only [Heap.alloc]
        exact if_neg (Nat.ne_of_lt (hl a (List.mem_cons_of_mem b ha))))
    rw [hcong]

theorem writeAll_next (h : Heap) (ws : List (ℕ × StacRecord)) :
    (writeAll h ws).next = h.next := by
  induction ws generalizing h with
  | nil => rfl
  | cons w rest ih =>
    simp only [writeAll]
    rw [ih]
    rfl

theorem writeAll_mem_not_written (h : Heap) (ws : List (ℕ × StacRecord)) (a : ℕ)
    (ha : ∀ w ∈ ws, w.1 ≠ a) : (writeAll h ws).mem a = h.mem a := by
  induction ws generalizing h with
  | nil => rfl
  | cons w rest ih =>
    simp only [writeAll]
    rw [ih (h.write w.1 w.2) (fun x hx => ha x (List.mem_cons_of_mem w hx))]
    simp only [Heap.write]
    exact if_neg (fun hh => ha w (List.mem_cons_self w rest) hh.symm)

theorem mem_filter_ne (c : List (ℕ × List ℕ)) (key : ℕ) :
    ∀ p ∈ c.filter (fun p => decide (p.1 ≠ key)), p.1 ≠ key := by
  intro p hp
  exact of_decide_eq_true (List.mem_filter.mp hp).2

theorem find?_append_key (key : ℕ) (stored : List ℕ) (L : List (ℕ × List ℕ))
    (hL : ∀ p ∈ L, p.1 ≠ key) :
    (L ++ [(key, stored)]).find? (fun p => decide (p.1 = key)) =
      some (key, stored) := by
  induction L with
  | nil => simp [List.find?]
  | cons p t ih =>
    have hp : (decide (p.1 = key)) = false :=
      decide_eq_false (hL p (List.mem_cons_self p t))
    simp only [List.cons_append, List.find?, hp]
    exact ih (fun q hq => hL q (List.mem_cons_of_mem p hq))

/-- After a `set`, the entry for the key is present and holds the stored
copies (it is the most recent entry, so eviction cannot have removed
it). -/
theorem set_cache_find (h : Heap) (c : List (ℕ × List ℕ)) (key : ℕ)
    (addrs : List ℕ) :
    ((_set_stac_records_in_memory h c key addrs).2).find?
        (fun p => decide (p.1 = key)) = some (key, (copyRecords h addrs).2) := by
  unfold _set_stac_records_in_memory
  dsimp only
  split_ifs with hlen
  · have h1 : 1 ≤ (c.filter (fun p => decide (p.1 ≠ key))).length := by
      simp only [STAC_MEMORY_CACHE_MAX_ENTRIES, List.length_append,
        List.length_cons, List.length_nil] at hlen
      omega
    rw [List.drop_append_of_le_length h1]
    exact find?_append_key key _ _ (fun p hp =>
      mem_filter_ne c key p (List.mem_of_mem_drop hp))
  · exact find?_append_key key _ _ (mem_filter_ne c key)

/-- A lookup that finds the entry copies it out. -/
theorem get_found (h : Heap) (cache : List (ℕ × List ℕ)) (key : ℕ)
    (stored : List ℕ)
    (hf : cache.find? (fun p => decide (p.1 = key)) = some (key, stored)) :
    _get_stac_records_from_memory h cache key =
      ((copyRecords h stored).1,
       (cache.filter (fun p => decide (p.1 ≠ key))) ++ [(key, stored)],
       some (copyRecords h stored).2) := by
  unfold _get_stac_records_from_memory
  rw [hf]

/-- C10: the in-memory scene-record cache stores copies of the inserted
records and hands out fresh copies on every hit: after a `set` followed
by a `get`, the records handed out carry exactly the contents the
inserted records had at insertion time, and after any mutations of the
handed-out addresses or of the originally inserted addresses, a repeated
`get` of the same key still returns those original contents. -/
theorem stac_memory_cache_returns_copies
    (h : Heap) (c : List (ℕ × List ℕ)) (key : ℕ) (addrs : List ℕ)
    (haddrs : ∀ a ∈ addrs, a < h.next) :
    ∀ out, (setThenGet h c key addrs).2.2 = some out →
      out.map (setThenGet h c key addrs).1.mem = addrs.map h.mem ∧
      ∀ ws : List (ℕ × StacRecord), (∀ w ∈ ws, w.1 ∈ out ∨ w.1 ∈ addrs) →
        ∀ out2,
          (_get_stac_records_from_memory
              (writeAll (setThenGet h c key addrs).1 ws)
              (setThenGet h c key addrs).2.1 key).2.2 = some out2 →
          out2.map (_get_stac_records_from_memory
              (writeAll (setThenGet h c key addrs).1 ws)
              (setThenGet h c key addrs).2.1 key).1.mem = addrs.map h.mem := by
  have hget : setThenGet h c key addrs =
      ((copyRecords (copyRecords h addrs).1 (copyRecords h addrs).2).1,
       ((_set_stac_records_in_memory h c key addrs).2.filter
          (fun p => decide (p.1 ≠ key))) ++ [(key, (copyRecords h addrs).2)],
       some (copyRecords (copyRecords h addrs).1 (copyRecords h addrs).2).2) :=
    get_found (copyRecords h addrs).1 (_set_stac_records_in_memory h c key addrs).2
      key (copyRecords h addrs).2 (set_cache_find h c key addrs)
  intro out hout
  rw [hget] at hout
  dsimp only at hout
  obtain rfl :
      (copyRecords (copyRecords h addrs).1 (copyRecords h addrs).2).2 = out :=
    Option.some.inj hout
  rw [hget]
  dsimp only
  have hstored_lt : ∀ x ∈ (copyRecords h addrs).2,
      x < (copyRecords h addrs).1.next := by
    intro x hx
    have hb := copyRecords_addrs_bound h addrs x hx
    rw [copyRecords_next h addrs]
    omega
  have hcont1 := copyRecords_contents h addrs haddrs
  have hcont2 := copyRecords_contents (copyRecords h addrs).1
    (copyRecords h addrs).2 hstored_lt
  refine ⟨hcont2.trans hcont1, ?_⟩
  intro ws hws out2 hout2
  have hget2 : _get_stac_records_from_memory
      (writeAll (copyRecords (copyRecords h addrs).1 (copyRecords h addrs).2).1 ws)
      (((_set_stac_records_in_memory h c key addrs).2.filter
          (fun p => decide (p.1 ≠ key))) ++ [(key, (copyRecords h addrs).2)]) key =
      ((copyRecords
          (writeAll (copyRecords (copyRecords h addrs).1 (copyRecords h addrs).2).1 ws)
          (copyRecords h addrs).2).1,
       ((((_set_stac_records_in_memory h c key addrs).2.filter
            (fun p => decide (p.1 ≠ key))) ++ [(key, (copyRecords h addrs).2)]).filter
          (fun p => decide (p.1 ≠ key))) ++ [(key, (copyRecords h addrs).2)],
       some (copyRecords
          (writeAll (copyRecords (copyRecords h addrs).1 (copyRecords h addrs).2).1 ws)
          (copyRecords h addrs).2).2) :=
    get_found _ _ key _ (find?_append_key key _ _ (mem_filter_ne _ key))
  rw [hget2] at hout2
  dsimp only at hout2
  obtain rfl := Option.some.inj hout2
  rw [hget2]
  dsimp only
  have hwnext := writeAll_next
    (copyRecords (copyRecords h addrs).1 (copyRecords h addrs).2).1 ws
  have hstored_lt2 : ∀ x ∈ (copyRecords h addrs).2,
      x < (writeAll (copyRecords (copyRecords h addrs).1
        (copyRecords h addrs).2).1 ws).next := by
    intro x hx
    rw [hwnext, copyRecords_next (copyRecords h addrs).1 (copyRecords h addrs).2]
    have := hstored_lt x hx
    omega
  have hcont3 := copyRecords_contents
    (writeAll (copyRecords (copyRecords h addrs).1 (copyRecords h addrs).2).1 ws)
    (copyRecords h addrs).2 hstored_lt2
  have hnowrite : ∀ x ∈ (copyRecords h addrs).2,
      (writeAll (copyRecords (copyRecords h addrs).1
        (copyRecords h addrs).2).1 ws).mem x =
      (copyRecords (copyRecords h addrs).1 (copyRecords h addrs).2).1.mem x := by
    intro x hx
    apply writeAll_mem_not_written
    intro w hw
    rcases hws w hw with hwo | hwa
    · have hb1 := copyRecords_addrs_bound (copyRecords h addrs).1
        (copyRecords h addrs).2 w.1 hwo
      have hbx := hstored_lt x hx
      omega
    · have hb1 := haddrs w.1 hwa
      have hbx := copyRecords_addrs_bound h addrs x hx
      omega
  have hmemeq : ∀ x ∈ (copyRecords h addrs).2,
      (copyRecords (copyRecords h addrs).1 (copyRecords h addrs).2).1.mem x =
      (copyRecords h addrs).1.mem x := by
    intro x hx
    exact copyRecords_mem_lt (copyRecords h addrs).1 (copyRecords h addrs).2 x
      (hstored_lt x hx)
  rw [hcont3, map_mem_congr hnowrite, map_mem_congr hmemeq]
  exact hcont1

/-- C10 witness: one record inserted from address 0 is handed back at
fresh address 2; after overwriting both the handed-out dict (address 2)
and the original input dict (address 0), a repeated hit still returns
the original contents. -/
theorem stac_memory_cache_returns_copies_witness :
    (setThenGet h0 [] 7 [0]).2.2 = some [2] ∧
    [2].map (setThenGet h0 [] 7 [0]).1.mem = [0].map h0.mem ∧
    (_get_stac_records_from_memory (writeAll (setThenGet h0 [] 7 [0]).1 ws0)
        (setThenGet h0 [] 7 [0]).2.1 7).2.2 = some [3] ∧
    [3].map (_get_stac_records_from_memory (writeAll (setThenGet h0 [] 7 [0]).1 ws0)
        (setThenGet h0 [] 7 [0]).2.1 7).1.mem = [0].map h0.mem := by
  have hmain := stac_memory_cache_returns_copies h0 [] 7 [0]
    (by intro a ha; simp only [List.mem_singleton] at ha; subst ha; exact Nat.one_pos)
  have h22 : (setThenGet h0 [] 7 [0]).2.2 = some [2] := rfl
  obtain ⟨hc1, hrest⟩ := hmain [2] h22
  have hws : ∀ w ∈ ws0, w.1 ∈ [2] ∨ w.1 ∈ [0] := by decide
  have h32 : (_get_stac_records_from_memory (writeAll (setThenGet h0 [] 7 [0]).1 ws0)
      (setThenGet h0 [] 7 [0]).2.1 7).2.2 = some [3] := rfl
  exact ⟨h22, hc1, h32, hrest ws0 hws [3] h32⟩

end DemeterEye
